import Mathlib

/-!
Verification of the per-frame decision-and-control core of the
AimAssistant_CV repository: the target selector
(src/core/target_selector.py) and the PD aim controller
(src/core/controller.py), together with the coordinate helpers
(src/utils/coordinate.py).

Python floating-point values are modelled as exact real numbers
(field ℝ, with math.sqrt as Real.sqrt); the pure rational coordinate
helpers are modelled over ℚ.  Python's None-or-value parameters are
modelled with Option.
-/

/- ---------------------------------------------------------------
   Data model: Detection (src/core/detector.py, class Detection)
   --------------------------------------------------------------- -/

/-- Embeds the Detection dataclass of src/core/detector.py: an
axis-aligned bounding box with a confidence score and a class id. -/
structure Detection where
  x1 : ℝ
  y1 : ℝ
  x2 : ℝ
  y2 : ℝ
  score : ℝ
  class_id : ℤ

/-- Detection.center_x property: (x1 + x2) / 2. -/
noncomputable def Detection.center_x (d : Detection) : ℝ := (d.x1 + d.x2) / 2

/-- Detection.center_y property: (y1 + y2) / 2. -/
noncomputable def Detection.center_y (d : Detection) : ℝ := (d.y1 + d.y2) / 2

/- ---------------------------------------------------------------
   Target selector (src/core/target_selector.py)
   --------------------------------------------------------------- -/

/-- TargetSelector._point_in_box: the point (x, y) lies inside the
detection box, inclusively on all four edges
(x1 <= x <= x2 and y1 <= y <= y2). -/
def point_in_box (x y : ℝ) (d : Detection) : Prop :=
  d.x1 ≤ x ∧ x ≤ d.x2 ∧ d.y1 ≤ y ∧ y ≤ d.y2

noncomputable instance (x y : ℝ) (d : Detection) : Decidable (point_in_box x y d) := by
  unfold point_in_box; infer_instance

/-- TargetSelector.SCREEN_CENTER, the fixed self-anchor point. -/
noncomputable def SCREEN_CENTER : ℝ × ℝ := (960, 540)

/-- Euclidean distance from the cursor to a detection's center, as the
selection loop of TargetSelector.select computes it:
math.sqrt((center_x - cursor_x)**2 + (center_y - cursor_y)**2). -/
noncomputable def distToCursor (cursor : ℝ × ℝ) (d : Detection) : ℝ :=
  Real.sqrt ((d.center_x - cursor.1) ^ 2 + (d.center_y - cursor.2) ^ 2)

/-- The selection loop of TargetSelector.select.  The Python loop keeps
a running pair (min_distance, nearest_target) initialised to
(float inf, None); we model that accumulator as an
Option (Detection × ℝ), none standing for the initial state, in which
the first comparison distance < inf always succeeds.  Replacement is
on strict < only, so the first box attaining the minimum is kept. -/
noncomputable def nearestFold (cursor : ℝ × ℝ) :
    List Detection → Option (Detection × ℝ) → Option (Detection × ℝ)
  | [], acc => acc
  | d :: rest, acc =>
      match acc with
      | none => nearestFold cursor rest (some (d, distToCursor cursor d))
      | some (b, bd) =>
          if distToCursor cursor d < bd then
            nearestFold cursor rest (some (d, distToCursor cursor d))
          else
            nearestFold cursor rest (some (b, bd))

/-- The per-instance state that TargetSelector.select writes:
self.candidates and self.current_target. -/
structure SelectorState where
  candidates : List Detection
  current_target : Option Detection

/-- TargetSelector.select.  The Python method returns the chosen target
and mutates self.candidates / self.current_target; we return both the
chosen target and the resulting SelectorState.  The anchor parameter is
the self-anchor point (the class constant SCREEN_CENTER = (960, 540)). -/
noncomputable def TargetSelector.select (anchor : ℝ × ℝ)
    (detections : List Detection) (cursor : ℝ × ℝ) :
    Option Detection × SelectorState :=
  if detections.isEmpty then
    (none, ⟨[], none⟩)
  else
    let filtered :=
      detections.filter fun det => decide ¬ point_in_box anchor.1 anchor.2 det
    if filtered.isEmpty then
      (none, ⟨filtered, none⟩)
    else
      let nearest := (nearestFold cursor filtered none).map Prod.fst
      (nearest, ⟨filtered, nearest⟩)

/- ---------------------------------------------------------------
   Aim controller (src/core/controller.py)
   --------------------------------------------------------------- -/

/-- The AimController instance: gain configuration plus the internal
state fields prev_error_x/y and prev_output_x/y. -/
structure AimController where
  kp : ℝ
  kd : ℝ
  alpha : ℝ
  dead_zone : ℝ
  max_speed : ℝ
  prev_error_x : ℝ
  prev_error_y : ℝ
  prev_output_x : ℝ
  prev_output_y : ℝ

/-- AimController.__init__: gains as given, internal state zeroed. -/
noncomputable def AimController.init (kp kd alpha dead_zone max_speed : ℝ) : AimController :=
  ⟨kp, kd, alpha, dead_zone, max_speed, 0, 0, 0, 0⟩

/-- Euclidean magnitude of a vector, as the controller computes it with
math.sqrt(x**2 + y**2). -/
noncomputable def vecNorm (v : ℝ × ℝ) : ℝ :=
  Real.sqrt (v.1 ^ 2 + v.2 ^ 2)

/-- AimController.compute.  Returns the movement vector together with
the updated controller (the Python method mutates self). -/
noncomputable def AimController.compute (c : AimController)
    (cursor_pos target_pos : ℝ × ℝ) (dt : ℝ) : (ℝ × ℝ) × AimController :=
  let error_x := target_pos.1 - cursor_pos.1
  let error_y := target_pos.2 - cursor_pos.2
  let distance := Real.sqrt (error_x ^ 2 + error_y ^ 2)
  if distance < c.dead_zone then
    ((0, 0), { c with prev_error_x := error_x, prev_error_y := error_y })
  else
    let p_x := c.kp * error_x
    let p_y := c.kp * error_y
    let d_x := c.kd * (error_x - c.prev_error_x) / dt
    let d_y := c.kd * (error_y - c.prev_error_y) / dt
    let output_x := p_x + d_x
    let output_y := p_y + d_y
    let smoothed_x := c.alpha * output_x + (1 - c.alpha) * c.prev_output_x
    let smoothed_y := c.alpha * output_y + (1 - c.alpha) * c.prev_output_y
    let speed := Real.sqrt (smoothed_x ^ 2 + smoothed_y ^ 2)
    let final_x := if speed > c.max_speed then smoothed_x * (c.max_speed / speed) else smoothed_x
    let final_y := if speed > c.max_speed then smoothed_y * (c.max_speed / speed) else smoothed_y
    ((final_x, final_y),
      { c with
        prev_error_x := error_x
        prev_error_y := error_y
        prev_output_x := final_x
        prev_output_y := final_y })

/-- AimController.reset: zeroes the four internal state fields. -/
noncomputable def AimController.reset (c : AimController) : AimController :=
  { c with
    prev_error_x := 0
    prev_error_y := 0
    prev_output_x := 0
    prev_output_y := 0 }

/-- AimController.update_params: each parameter is optional; a supplied
value overwrites the field, an omitted one (None) leaves it unchanged.
No bounds checking is performed. -/
noncomputable def AimController.update_params (c : AimController)
    (kp kd alpha dead_zone max_speed : Option ℝ) : AimController :=
  let c := match kp with | some v => { c with kp := v } | none => c
  let c := match kd with | some v => { c with kd := v } | none => c
  let c := match alpha with | some v => { c with alpha := v } | none => c
  let c := match dead_zone with | some v => { c with dead_zone := v } | none => c
  let c := match max_speed with | some v => { c with max_speed := v } | none => c
  c

/- ---------------------------------------------------------------
   Coordinate helpers (src/utils/coordinate.py) over exact rationals
   --------------------------------------------------------------- -/

/-- scale_coordinates: per-axis linear rescale from one size to
another. -/
def scale_coordinates (x y : ℚ) (from_size to_size : ℚ × ℚ) : ℚ × ℚ :=
  let scale_x := to_size.1 / from_size.1
  let scale_y := to_size.2 / from_size.2
  (x * scale_x, y * scale_y)

/-- map_to_screen: model coordinates to screen coordinates. -/
def map_to_screen (x y : ℚ) (model_size screen_size : ℚ × ℚ) : ℚ × ℚ :=
  scale_coordinates x y model_size screen_size

/-- map_to_model: screen coordinates to model coordinates. -/
def map_to_model (x y : ℚ) (screen_size model_size : ℚ × ℚ) : ℚ × ℚ :=
  scale_coordinates x y screen_size model_size

/- ---------------------------------------------------------------
   Helper lemmas
   --------------------------------------------------------------- -/

lemma sqrt_eval (a b : ℝ) (hb : 0 ≤ b) (h : a = b ^ 2) : Real.sqrt a = b := by
  rw [h]; exact Real.sqrt_sq hb

lemma sqrt_not_lt (a b c : ℝ) (hb : 0 ≤ b) (h : a = b ^ 2) (hbc : c ≤ b) :
    ¬ Real.sqrt a < c := by
  rw [sqrt_eval a b hb h]; exact not_lt.mpr hbc

lemma sqrt_not_gt (a b c : ℝ) (hb : 0 ≤ b) (h : a = b ^ 2) (hbc : b ≤ c) :
    ¬ Real.sqrt a > c := by
  rw [sqrt_eval a b hb h]; exact not_lt.mpr hbc

lemma sqrt_lt_of_sq (a b c : ℝ) (hb : 0 ≤ b) (h : a = b ^ 2) (hbc : b < c) :
    Real.sqrt a < c := by
  rw [sqrt_eval a b hb h]; exact hbc

/- ---------------------------------------------------------------
   Claims about the controller configuration and state plumbing
   --------------------------------------------------------------- -/

/-- Claim C7: reset() zeroes previous_error and previous_output, so a
reset controller computes exactly what a freshly constructed controller
with the same gains computes on identical inputs. -/
theorem C7_reset_fresh (c : AimController) (cursor target : ℝ × ℝ) (dt : ℝ) :
    c.reset.prev_error_x = 0 ∧ c.reset.prev_error_y = 0 ∧
    c.reset.prev_output_x = 0 ∧ c.reset.prev_output_y = 0 ∧
    c.reset.compute cursor target dt =
      (AimController.init c.kp c.kd c.alpha c.dead_zone c.max_speed).compute cursor target dt :=
  ⟨rfl, rfl, rfl, rfl, rfl⟩

/-- Claim C8: update_params overwrites exactly the supplied parameters
(matching the Python None checks), leaves unspecified ones and the
internal state unchanged, and performs no bounds checking: the equations
hold for arbitrary real values, including negative max_speed or alpha
outside the unit interval. -/
theorem C8_update_params_partial (c : AimController)
    (kp kd alpha dead_zone max_speed : Option ℝ) :
    (c.update_params kp kd alpha dead_zone max_speed).kp = kp.getD c.kp ∧
    (c.update_params kp kd alpha dead_zone max_speed).kd = kd.getD c.kd ∧
    (c.update_params kp kd alpha dead_zone max_speed).alpha = alpha.getD c.alpha ∧
    (c.update_params kp kd alpha dead_zone max_speed).dead_zone = dead_zone.getD c.dead_zone ∧
    (c.update_params kp kd alpha dead_zone max_speed).max_speed = max_speed.getD c.max_speed ∧
    (c.update_params kp kd alpha dead_zone max_speed).prev_error_x = c.prev_error_x ∧
    (c.update_params kp kd alpha dead_zone max_speed).prev_error_y = c.prev_error_y ∧
    (c.update_params kp kd alpha dead_zone max_speed).prev_output_x = c.prev_output_x ∧
    (c.update_params kp kd alpha dead_zone max_speed).prev_output_y = c.prev_output_y := by
  cases kp <;> cases kd <;> cases alpha <;> cases dead_zone <;> cases max_speed <;>
    simp [AimController.update_params]

/-- Claim C10: compute() never modifies the configuration fields kp,
kd, alpha, dead_zone, max_speed; only the previous-error and
previous-output state fields can change. -/
theorem C10_compute_preserves_config (c : AimController)
    (cursor target : ℝ × ℝ) (dt : ℝ) :
    (c.compute cursor target dt).2.kp = c.kp ∧
    (c.compute cursor target dt).2.kd = c.kd ∧
    (c.compute cursor target dt).2.alpha = c.alpha ∧
    (c.compute cursor target dt).2.dead_zone = c.dead_zone ∧
    (c.compute cursor target dt).2.max_speed = c.max_speed := by
  simp only [AimController.compute]
  split <;> simp

/- ---------------------------------------------------------------
   Claim about the coordinate helpers
   --------------------------------------------------------------- -/

/-- Claim C9: under exact rational arithmetic, mapping a point from
model coordinates to screen coordinates and back with the same nonzero
sizes is the identity. -/
theorem C9_roundtrip (x y : ℚ) (model_size screen_size : ℚ × ℚ)
    (hm1 : model_size.1 ≠ 0) (hm2 : model_size.2 ≠ 0)
    (hs1 : screen_size.1 ≠ 0) (hs2 : screen_size.2 ≠ 0) :
    map_to_model (map_to_screen x y model_size screen_size).1
      (map_to_screen x y model_size screen_size).2 screen_size model_size = (x, y) := by
  unfold map_to_model map_to_screen scale_coordinates
  refine Prod.ext ?_ ?_ <;> dsimp only
  · field_simp
  · field_simp

/-- Claim C9 witness: the round trip at (320, 180) with the default
sizes 640x360 and 1920x1080 returns (320, 180). -/
theorem C9_roundtrip_witness :
    map_to_model (map_to_screen 320 180 (640, 360) (1920, 1080)).1
      (map_to_screen 320 180 (640, 360) (1920, 1080)).2 (1920, 1080) (640, 360) = (320, 180) :=
  C9_roundtrip 320 180 (640, 360) (1920, 1080)
    (by norm_num) (by norm_num) (by norm_num) (by norm_num)

/- ---------------------------------------------------------------
   Branch lemmas for AimController.compute
   --------------------------------------------------------------- -/

/-- The pre-clamp smoothed vector of steps 3 and 4 of
AimController.compute (P term plus D term, then alpha smoothing),
written as a standalone function of the controller and the inputs.
The lemmas compute_deadzone, compute_noclamp and compute_clamp prove
that compute is exactly the composition of this with the clamp. -/
noncomputable def AimController.smoothedVec (c : AimController)
    (cursor_pos target_pos : ℝ × ℝ) (dt : ℝ) : ℝ × ℝ :=
  (c.alpha * (c.kp * (target_pos.1 - cursor_pos.1) +
      c.kd * ((target_pos.1 - cursor_pos.1) - c.prev_error_x) / dt) +
    (1 - c.alpha) * c.prev_output_x,
   c.alpha * (c.kp * (target_pos.2 - cursor_pos.2) +
      c.kd * ((target_pos.2 - cursor_pos.2) - c.prev_error_y) / dt) +
    (1 - c.alpha) * c.prev_output_y)

lemma compute_deadzone (c : AimController) (cursor target : ℝ × ℝ) (dt : ℝ)
    (h : Real.sqrt ((target.1 - cursor.1) ^ 2 + (target.2 - cursor.2) ^ 2) < c.dead_zone) :
    c.compute cursor target dt =
      ((0, 0), { c with prev_error_x := target.1 - cursor.1,
                        prev_error_y := target.2 - cursor.2 }) := by
  simp only [AimController.compute]
  rw [if_pos h]

lemma compute_noclamp (c : AimController) (cursor target : ℝ × ℝ) (dt : ℝ)
    (h1 : ¬ Real.sqrt ((target.1 - cursor.1) ^ 2 + (target.2 - cursor.2) ^ 2) < c.dead_zone)
    (h2 : ¬ vecNorm (c.smoothedVec cursor target dt) > c.max_speed) :
    c.compute cursor target dt =
      (c.smoothedVec cursor target dt,
        { c with prev_error_x := target.1 - cursor.1,
                 prev_error_y := target.2 - cursor.2,
                 prev_output_x := (c.smoothedVec cursor target dt).1,
                 prev_output_y := (c.smoothedVec cursor target dt).2 }) := by
  simp only [AimController.compute, AimController.smoothedVec, vecNorm] at h2 ⊢
  rw [if_neg h1, if_neg h2, if_neg h2]

lemma compute_clamp (c : AimController) (cursor target : ℝ × ℝ) (dt : ℝ)
    (h1 : ¬ Real.sqrt ((target.1 - cursor.1) ^ 2 + (target.2 - cursor.2) ^ 2) < c.dead_zone)
    (h2 : vecNorm (c.smoothedVec cursor target dt) > c.max_speed) :
    c.compute cursor target dt =
      (((c.smoothedVec cursor target dt).1 *
          (c.max_speed / vecNorm (c.smoothedVec cursor target dt)),
        (c.smoothedVec cursor target dt).2 *
          (c.max_speed / vecNorm (c.smoothedVec cursor target dt))),
        { c with prev_error_x := target.1 - cursor.1,
                 prev_error_y := target.2 - cursor.2,
                 prev_output_x := (c.smoothedVec cursor target dt).1 *
                   (c.max_speed / vecNorm (c.smoothedVec cursor target dt)),
                 prev_output_y := (c.smoothedVec cursor target dt).2 *
                   (c.max_speed / vecNorm (c.smoothedVec cursor target dt)) }) := by
  simp only [AimController.compute, AimController.smoothedVec, vecNorm] at h2 ⊢
  rw [if_neg h1, if_pos h2, if_pos h2]

/- ---------------------------------------------------------------
   Claim C3: dead-zone behavior
   --------------------------------------------------------------- -/

/-- Claim C3: when the Euclidean distance from cursor to target is
strictly below dead_zone, compute returns exactly (0, 0), stores the
fresh error in previous_error and leaves previous_output untouched;
the comparison is strict, so at cursor (0,0), target (3,4),
dead_zone 5 the distance is exactly 5 and the full PD path runs,
producing the nonzero output (0.51, 0.68). -/
theorem C3_dead_zone (c : AimController) (cursor target : ℝ × ℝ) (dt : ℝ)
    (h : Real.sqrt ((target.1 - cursor.1) ^ 2 + (target.2 - cursor.2) ^ 2) < c.dead_zone) :
    (c.compute cursor target dt).1 = (0, 0) ∧
    (c.compute cursor target dt).2.prev_error_x = target.1 - cursor.1 ∧
    (c.compute cursor target dt).2.prev_error_y = target.2 - cursor.2 ∧
    (c.compute cursor target dt).2.prev_output_x = c.prev_output_x ∧
    (c.compute cursor target dt).2.prev_output_y = c.prev_output_y ∧
    ((AimController.init 0.15 0.05 0.85 5 30).compute (0, 0) (3, 4) 1).1 = (0.51, 0.68) := by
  rw [compute_deadzone c cursor target dt h]
  refine ⟨rfl, rfl, rfl, rfl, rfl, ?_⟩
  have hs : (AimController.init 0.15 0.05 0.85 5 30).smoothedVec (0, 0) (3, 4) 1 =
      (0.51, 0.68) := by
    norm_num [AimController.smoothedVec, AimController.init]
  have h1 : ¬ Real.sqrt ((((3 : ℝ), (4 : ℝ)).1 - ((0 : ℝ), (0 : ℝ)).1) ^ 2 +
      (((3 : ℝ), (4 : ℝ)).2 - ((0 : ℝ), (0 : ℝ)).2) ^ 2) <
      (AimController.init 0.15 0.05 0.85 5 30).dead_zone :=
    sqrt_not_lt _ 5 _ (by norm_num) (by norm_num) (by norm_num [AimController.init])
  have h2 : ¬ vecNorm ((AimController.init 0.15 0.05 0.85 5 30).smoothedVec (0, 0) (3, 4) 1) >
      (AimController.init 0.15 0.05 0.85 5 30).max_speed := by
    rw [hs]
    simp only [vecNorm]
    exact sqrt_not_gt _ 0.85 _ (by norm_num) (by norm_num) (by norm_num [AimController.init])
  rw [compute_noclamp _ _ _ _ h1 h2, hs]

/-- Claim C3 witness: at cursor (0,0), target (1,0), dead_zone 5 the
distance 1 is inside the dead zone and the output is (0, 0). -/
theorem C3_dead_zone_witness :
    ((AimController.init 0.15 0.05 0.85 5 30).compute (0, 0) (1, 0) 1).1 = (0, 0) :=
  (C3_dead_zone (AimController.init 0.15 0.05 0.85 5 30) (0, 0) (1, 0) 1
    (sqrt_lt_of_sq _ 1 _ (by norm_num) (by norm_num) (by norm_num [AimController.init]))).1

/- ---------------------------------------------------------------
   Claim C5: two consecutive compute calls on a fresh controller
   --------------------------------------------------------------- -/

/-- Claim C5: on a fresh controller with kp 0.15, kd 0.05, alpha 0.85,
dead_zone 5, max_speed 30, compute at cursor (0,0), target (100,0),
dt 1 returns (17, 0); the second identical call on the resulting
controller returns (15.3, 0). -/
theorem C5_two_step_example :
    ((AimController.init 0.15 0.05 0.85 5 30).compute (0, 0) (100, 0) 1).1 = (17, 0) ∧
    (((AimController.init 0.15 0.05 0.85 5 30).compute (0, 0) (100, 0) 1).2.compute
      (0, 0) (100, 0) 1).1 = (15.3, 0) := by
  have hs1 : (AimController.init 0.15 0.05 0.85 5 30).smoothedVec (0, 0) (100, 0) 1 =
      (17, 0) := by
    norm_num [AimController.smoothedVec, AimController.init]
  have h11 : ¬ Real.sqrt ((((100 : ℝ), (0 : ℝ)).1 - ((0 : ℝ), (0 : ℝ)).1) ^ 2 +
      (((100 : ℝ), (0 : ℝ)).2 - ((0 : ℝ), (0 : ℝ)).2) ^ 2) <
      (AimController.init 0.15 0.05 0.85 5 30).dead_zone :=
    sqrt_not_lt _ 100 _ (by norm_num) (by norm_num) (by norm_num [AimController.init])
  have h12 : ¬ vecNorm ((AimController.init 0.15 0.05 0.85 5 30).smoothedVec
      (0, 0) (100, 0) 1) > (AimController.init 0.15 0.05 0.85 5 30).max_speed := by
    rw [hs1]
    simp only [vecNorm]
    exact sqrt_not_gt _ 17 _ (by norm_num) (by norm_num) (by norm_num [AimController.init])
  have hc1 : (AimController.init 0.15 0.05 0.85 5 30).compute (0, 0) (100, 0) 1 =
      ((17, 0), AimController.mk 0.15 0.05 0.85 5 30 100 0 17 0) := by
    rw [compute_noclamp _ _ _ _ h11 h12, hs1]
    norm_num [AimController.init]
  have hs2 : (AimController.mk 0.15 0.05 0.85 5 30 100 0 17 0).smoothedVec
      (0, 0) (100, 0) 1 = (15.3, 0) := by
    norm_num [AimController.smoothedVec]
  have h21 : ¬ Real.sqrt ((((100 : ℝ), (0 : ℝ)).1 - ((0 : ℝ), (0 : ℝ)).1) ^ 2 +
      (((100 : ℝ), (0 : ℝ)).2 - ((0 : ℝ), (0 : ℝ)).2) ^ 2) <
      (AimController.mk 0.15 0.05 0.85 5 30 100 0 17 0).dead_zone :=
    sqrt_not_lt _ 100 _ (by norm_num) (by norm_num) (by norm_num)
  have h22 : ¬ vecNorm ((AimController.mk 0.15 0.05 0.85 5 30 100 0 17 0).smoothedVec
      (0, 0) (100, 0) 1) > (AimController.mk 0.15 0.05 0.85 5 30 100 0 17 0).max_speed := by
    rw [hs2]
    simp only [vecNorm]
    exact sqrt_not_gt _ 15.3 _ (by norm_num) (by norm_num) (by norm_num)
  refine ⟨by rw [hc1], ?_⟩
  rw [hc1]
  rw [compute_noclamp _ _ _ _ h21 h22, hs2]

/- ---------------------------------------------------------------
   Claim C4: speed clamp invariant
   --------------------------------------------------------------- -/

lemma vecNorm_mul_right (x y k : ℝ) (hk : 0 ≤ k) :
    vecNorm (x * k, y * k) = vecNorm (x, y) * k := by
  simp only [vecNorm]
  rw [show (x * k) ^ 2 + (y * k) ^ 2 = (x ^ 2 + y ^ 2) * k ^ 2 from by ring,
    Real.sqrt_mul (by positivity), Real.sqrt_sq hk]

/-- Claim C4: with max_speed nonnegative, the magnitude of the vector
compute returns never exceeds max_speed (exactly, since the model is in
exact arithmetic); and whenever the pre-clamp smoothed vector exceeds
max_speed in magnitude, the result is that vector scaled by the
nonnegative factor max_speed / |smoothed| (so the direction is kept),
its magnitude is exactly max_speed, and the clamped value is what is
committed to previous_output. -/
theorem C4_speed_clamp (c : AimController) (cursor target : ℝ × ℝ) (dt : ℝ)
    (h : 0 ≤ c.max_speed) :
    vecNorm (c.compute cursor target dt).1 ≤ c.max_speed ∧
    (¬ Real.sqrt ((target.1 - cursor.1) ^ 2 + (target.2 - cursor.2) ^ 2) < c.dead_zone →
      vecNorm (c.smoothedVec cursor target dt) > c.max_speed →
      ∃ k, 0 ≤ k ∧ (0 < c.max_speed → 0 < k) ∧
        (c.compute cursor target dt).1 =
          ((c.smoothedVec cursor target dt).1 * k, (c.smoothedVec cursor target dt).2 * k) ∧
        vecNorm (c.compute cursor target dt).1 = c.max_speed ∧
        (c.compute cursor target dt).2.prev_output_x = (c.compute cursor target dt).1.1 ∧
        (c.compute cursor target dt).2.prev_output_y = (c.compute cursor target dt).1.2) := by
  by_cases hdz : Real.sqrt ((target.1 - cursor.1) ^ 2 + (target.2 - cursor.2) ^ 2) < c.dead_zone
  · rw [compute_deadzone c cursor target dt hdz]
    refine ⟨?_, fun hdz2 _ => absurd hdz hdz2⟩
    simpa [vecNorm] using h
  · by_cases hcl : vecNorm (c.smoothedVec cursor target dt) > c.max_speed
    · have hnpos : 0 < vecNorm (c.smoothedVec cursor target dt) := lt_of_le_of_lt h hcl
      have hk0 : 0 ≤ c.max_speed / vecNorm (c.smoothedVec cursor target dt) :=
        div_nonneg h hnpos.le
      have hnorm : vecNorm
          ((c.smoothedVec cursor target dt).1 *
            (c.max_speed / vecNorm (c.smoothedVec cursor target dt)),
           (c.smoothedVec cursor target dt).2 *
            (c.max_speed / vecNorm (c.smoothedVec cursor target dt))) = c.max_speed := by
        rw [vecNorm_mul_right _ _ _ hk0,
          show ((c.smoothedVec cursor target dt).1, (c.smoothedVec cursor target dt).2) =
            c.smoothedVec cursor target dt from rfl,
          mul_comm, div_mul_cancel₀ _ (ne_of_gt hnpos)]
      rw [compute_clamp c cursor target dt hdz hcl]
      exact ⟨le_of_eq hnorm,
        fun _ _ => ⟨c.max_speed / vecNorm (c.smoothedVec cursor target dt), hk0,
          fun hms => div_pos hms hnpos, rfl, hnorm, rfl, rfl⟩⟩
    · rw [compute_noclamp c cursor target dt hdz hcl]
      exact ⟨not_lt.mp hcl, fun _ hcl2 => absurd hcl2 hcl⟩

/-- Claim C4 witness: on the default controller, the output of the
first example call has magnitude at most max_speed 30. -/
theorem C4_speed_clamp_witness :
    (0 : ℝ) ≤ (AimController.init 0.15 0.05 0.85 5 30).max_speed ∧
    vecNorm ((AimController.init 0.15 0.05 0.85 5 30).compute (0, 0) (100, 0) 1).1 ≤
      (AimController.init 0.15 0.05 0.85 5 30).max_speed :=
  ⟨by norm_num [AimController.init],
   (C4_speed_clamp (AimController.init 0.15 0.05 0.85 5 30) (0, 0) (100, 0) 1
     (by norm_num [AimController.init])).1⟩

/- ---------------------------------------------------------------
   Selection loop analysis
   --------------------------------------------------------------- -/

lemma nearestFold_nil (cursor : ℝ × ℝ) (acc : Option (Detection × ℝ)) :
    nearestFold cursor [] acc = acc := rfl

lemma nearestFold_cons_none (cursor : ℝ × ℝ) (d : Detection) (rest : List Detection) :
    nearestFold cursor (d :: rest) none =
      nearestFold cursor rest (some (d, distToCursor cursor d)) := rfl

lemma nearestFold_cons_some (cursor : ℝ × ℝ) (d : Detection) (rest : List Detection)
    (b : Detection) (bd : ℝ) :
    nearestFold cursor (d :: rest) (some (b, bd)) =
      if distToCursor cursor d < bd then
        nearestFold cursor rest (some (d, distToCursor cursor d))
      else
        nearestFold cursor rest (some (b, bd)) := rfl

/-- Invariant of the selection loop: starting from a current best b, it
returns a pair of a detection and its distance, and the returned
detection is either b itself (when nothing in the remaining list beats
it strictly) or the first element of the remaining list that is
strictly closer than b and than everything before it, and no later
element is strictly closer. -/
lemma nearestFold_min (cursor : ℝ × ℝ) (l : List Detection) :
    ∀ b : Detection,
      ∃ t, nearestFold cursor l (some (b, distToCursor cursor b)) =
          some (t, distToCursor cursor t) ∧
        ((t = b ∧ ∀ d ∈ l, distToCursor cursor b ≤ distToCursor cursor d) ∨
         (∃ l1 l2, l = l1 ++ t :: l2 ∧
            distToCursor cursor t < distToCursor cursor b ∧
            (∀ d ∈ l1, distToCursor cursor t < distToCursor cursor d) ∧
            ∀ d ∈ l2, distToCursor cursor t ≤ distToCursor cursor d)) := by
  induction l with
  | nil =>
      intro b
      exact ⟨b, rfl, Or.inl ⟨rfl, by simp⟩⟩
  | cons d rest ih =>
      intro b
      by_cases hd : distToCursor cursor d < distToCursor cursor b
      · obtain ⟨t, ht, hcases⟩ := ih d
        refine ⟨t, ?_, ?_⟩
        · rw [nearestFold_cons_some, if_pos hd]
          exact ht
        · rcases hcases with ⟨rfl, hmin⟩ | ⟨l1, l2, hsplit, hlt, hl1, hl2⟩
          · exact Or.inr ⟨[], rest, rfl, hd, by simp, hmin⟩
          · refine Or.inr ⟨d :: l1, l2, by rw [hsplit]; rfl, lt_trans hlt hd, ?_, hl2⟩
            intro e he
            rcases List.mem_cons.mp he with rfl | he2
            · exact hlt
            · exact hl1 e he2
      · obtain ⟨t, ht, hcases⟩ := ih b
        refine ⟨t, ?_, ?_⟩
        · rw [nearestFold_cons_some, if_neg hd]
          exact ht
        · rcases hcases with ⟨rfl, hmin⟩ | ⟨l1, l2, hsplit, hlt, hl1, hl2⟩
          · refine Or.inl ⟨rfl, ?_⟩
            intro e he
            rcases List.mem_cons.mp he with rfl | he2
            · exact not_lt.mp hd
            · exact hmin e he2
          · refine Or.inr ⟨d :: l1, l2, by rw [hsplit]; rfl, hlt, ?_, hl2⟩
            intro e he
            rcases List.mem_cons.mp he with rfl | he2
            · exact lt_of_lt_of_le hlt (not_lt.mp hd)
            · exact hl1 e he2

/-- Full specification of select on inputs where the exclusion filter
leaves at least one box: it returns a surviving box of minimum center
distance, and every strictly earlier surviving box is strictly
farther. -/
lemma select_spec (anchor cursor : ℝ × ℝ) (detections : List Detection)
    (hne : detections.filter (fun det => decide ¬ point_in_box anchor.1 anchor.2 det) ≠ []) :
    ∃ t, (TargetSelector.select anchor detections cursor).1 = some t ∧
      t ∈ detections.filter (fun det => decide ¬ point_in_box anchor.1 anchor.2 det) ∧
      (∀ d ∈ detections.filter (fun det => decide ¬ point_in_box anchor.1 anchor.2 det),
        distToCursor cursor t ≤ distToCursor cursor d) ∧
      ∃ l1 l2, detections.filter (fun det => decide ¬ point_in_box anchor.1 anchor.2 det)
          = l1 ++ t :: l2 ∧
        ∀ d ∈ l1, distToCursor cursor t < distToCursor cursor d := by
  obtain ⟨f, fs, hF⟩ := List.exists_cons_of_ne_nil hne
  cases detections with
  | nil => simp at hF
  | cons a as =>
  rw [hF]
  have hsel : (TargetSelector.select anchor (a :: as) cursor).1 =
      (nearestFold cursor (f :: fs) none).map Prod.fst := by
    simp only [TargetSelector.select]
    rw [if_neg (by simp : ¬ ((a :: as).isEmpty = true))]
    rw [hF]
    rw [if_neg (by simp : ¬ ((f :: fs).isEmpty = true))]
  rw [nearestFold_cons_none] at hsel
  obtain ⟨t, ht, hcases⟩ := nearestFold_min cursor fs f
  rw [ht] at hsel
  refine ⟨t, by simpa using hsel, ?_, ?_, ?_⟩
  · rcases hcases with ⟨rfl, hmin⟩ | ⟨l1, l2, hsplit, hlt, hl1, hl2⟩
    · exact List.mem_cons_self _ _
    · rw [hsplit]
      exact List.mem_cons_of_mem _ (List.mem_append.mpr (Or.inr (List.mem_cons_self t l2)))
  · rcases hcases with ⟨rfl, hmin⟩ | ⟨l1, l2, hsplit, hlt, hl1, hl2⟩
    · intro e he
      rcases List.mem_cons.mp he with rfl | he2
      · exact le_refl _
      · exact hmin e he2
    · intro e he
      rcases List.mem_cons.mp he with rfl | he2
      · exact le_of_lt hlt
      · rw [hsplit] at he2
        rcases List.mem_append.mp he2 with h1 | h2
        · exact le_of_lt (hl1 e h1)
        · rcases List.mem_cons.mp h2 with rfl | h3
          · exact le_refl _
          · exact hl2 e h3
  · rcases hcases with ⟨rfl, hmin⟩ | ⟨l1, l2, hsplit, hlt, hl1, hl2⟩
    · exact ⟨[], fs, rfl, by simp⟩
    · refine ⟨f :: l1, l2, by rw [hsplit]; rfl, ?_⟩
      intro e he
      rcases List.mem_cons.mp he with rfl | he2
      · exact hlt
      · exact hl1 e he2

/- ---------------------------------------------------------------
   Claims C1, C2, C6 about the target selector
   --------------------------------------------------------------- -/

/-- Claim C1: when at least one box survives exclusion, select returns
a surviving box whose center distance to the cursor is no larger than
that of every other surviving box, and any surviving box strictly
earlier in the input's iteration order is strictly farther, so the
first box achieving the minimum wins ties. -/
theorem C1_nearest_first (anchor cursor : ℝ × ℝ) (detections : List Detection)
    (hne : detections.filter (fun det => decide ¬ point_in_box anchor.1 anchor.2 det) ≠ []) :
    ∃ t, (TargetSelector.select anchor detections cursor).1 = some t ∧
      t ∈ detections.filter (fun det => decide ¬ point_in_box anchor.1 anchor.2 det) ∧
      (∀ d ∈ detections.filter (fun det => decide ¬ point_in_box anchor.1 anchor.2 det),
        distToCursor cursor t ≤ distToCursor cursor d) ∧
      ∃ l1 l2, detections.filter (fun det => decide ¬ point_in_box anchor.1 anchor.2 det)
          = l1 ++ t :: l2 ∧
        ∀ d ∈ l1, distToCursor cursor t < distToCursor cursor d :=
  select_spec anchor cursor detections hne

/-- Claim C1 witness: two boxes with centers (30, 40) and (3, 4), a
cursor at the origin and the default anchor; neither box contains the
anchor, so both survive, and the conclusion holds at this input. -/
theorem C1_nearest_first_witness :
    ∃ t, (TargetSelector.select (960, 540)
        [⟨25, 35, 35, 45, 1, 0⟩, ⟨2, 3, 4, 5, 1, 0⟩] (0, 0)).1 = some t ∧
      t ∈ List.filter (fun det => decide ¬ point_in_box ((960 : ℝ), (540 : ℝ)).1
            ((960 : ℝ), (540 : ℝ)).2 det) [⟨25, 35, 35, 45, 1, 0⟩, ⟨2, 3, 4, 5, 1, 0⟩] ∧
      (∀ d ∈ List.filter (fun det => decide ¬ point_in_box ((960 : ℝ), (540 : ℝ)).1
            ((960 : ℝ), (540 : ℝ)).2 det) [⟨25, 35, 35, 45, 1, 0⟩, ⟨2, 3, 4, 5, 1, 0⟩],
        distToCursor (0, 0) t ≤ distToCursor (0, 0) d) ∧
      ∃ l1 l2, List.filter (fun det => decide ¬ point_in_box ((960 : ℝ), (540 : ℝ)).1
            ((960 : ℝ), (540 : ℝ)).2 det) [⟨25, 35, 35, 45, 1, 0⟩, ⟨2, 3, 4, 5, 1, 0⟩]
          = l1 ++ t :: l2 ∧
        ∀ d ∈ l1, distToCursor (0, 0) t < distToCursor (0, 0) d :=
  C1_nearest_first (960, 540) (0, 0) [⟨25, 35, 35, 45, 1, 0⟩, ⟨2, 3, 4, 5, 1, 0⟩] (by
    have hA : ¬ point_in_box ((960 : ℝ), (540 : ℝ)).1 ((960 : ℝ), (540 : ℝ)).2
        (⟨25, 35, 35, 45, 1, 0⟩ : Detection) := by norm_num [point_in_box]
    have hB : ¬ point_in_box ((960 : ℝ), (540 : ℝ)).1 ((960 : ℝ), (540 : ℝ)).2
        (⟨2, 3, 4, 5, 1, 0⟩ : Detection) := by norm_num [point_in_box]
    simp [List.filter_cons, List.filter_nil, hA, hB])

/-- Claim C2: select never returns a box whose rectangle contains the
self-anchor point, with boundary-inclusive containment; this holds for
every anchor, in particular the default SCREEN_CENTER (960, 540). -/
theorem C2_exclusion (anchor cursor : ℝ × ℝ) (detections : List Detection) (t : Detection)
    (h : (TargetSelector.select anchor detections cursor).1 = some t) :
    ¬ point_in_box anchor.1 anchor.2 t := by
  by_cases hne : detections.filter (fun det => decide ¬ point_in_box anchor.1 anchor.2 det) = []
  · exfalso
    cases detections with
    | nil => simp [TargetSelector.select] at h
    | cons a as =>
      rw [show (TargetSelector.select anchor (a :: as) cursor).1 = none from by
        simp only [TargetSelector.select]
        rw [if_neg (by simp : ¬ ((a :: as).isEmpty = true))]
        rw [hne]
        rfl] at h
      exact absurd h (by simp)
  · obtain ⟨t2, hsome, hmem, _, _⟩ := select_spec anchor cursor detections hne
    rw [hsome] at h
    have ht2 : t2 = t := by simpa using h
    subst ht2
    have hmem2 := List.mem_filter.mp hmem
    simpa using hmem2.2

/-- Claim C2 witness: with the default anchor and a single box away
from the anchor, select returns that box and the box indeed does not
contain the anchor. -/
theorem C2_exclusion_witness :
    ¬ point_in_box 960 540 (⟨0, 0, 10, 10, 1, 0⟩ : Detection) :=
  C2_exclusion (960, 540) (0, 0) [⟨0, 0, 10, 10, 1, 0⟩] ⟨0, 0, 10, 10, 1, 0⟩ (by
    have hA : ¬ point_in_box ((960 : ℝ), (540 : ℝ)).1 ((960 : ℝ), (540 : ℝ)).2
        (⟨0, 0, 10, 10, 1, 0⟩ : Detection) := by norm_num [point_in_box]
    simp only [TargetSelector.select]
    rw [if_neg (by simp : ¬ (([⟨0, 0, 10, 10, 1, 0⟩] : List Detection).isEmpty = true))]
    rw [show List.filter (fun det => decide ¬ point_in_box ((960 : ℝ), (540 : ℝ)).1
          ((960 : ℝ), (540 : ℝ)).2 det) [⟨0, 0, 10, 10, 1, 0⟩] = [⟨0, 0, 10, 10, 1, 0⟩] from by
        simp [List.filter_cons, hA]]
    rw [if_neg (by simp : ¬ (([⟨0, 0, 10, 10, 1, 0⟩] : List Detection).isEmpty = true))]
    rw [nearestFold_cons_none, nearestFold_nil]
    rfl)

/-- Claim C6: select on an empty detection list, and select on a list
in which every box contains the self-anchor point, both return no
target, store an empty candidate list and clear the current target. -/
theorem C6_no_target (anchor cursor : ℝ × ℝ) (detections : List Detection)
    (h : ∀ d ∈ detections, point_in_box anchor.1 anchor.2 d) :
    TargetSelector.select anchor [] cursor = (none, ⟨[], none⟩) ∧
    TargetSelector.select anchor detections cursor = (none, ⟨[], none⟩) := by
  have hfil : detections.filter
      (fun det => decide ¬ point_in_box anchor.1 anchor.2 det) = [] := by
    rw [List.filter_eq_nil_iff]
    intro d hd
    simp only [decide_eq_true_eq]
    exact not_not_intro (h d hd)
  refine ⟨rfl, ?_⟩
  cases detections with
  | nil => rfl
  | cons a as =>
    simp only [TargetSelector.select]
    rw [if_neg (by simp : ¬ ((a :: as).isEmpty = true))]
    rw [hfil]
    rfl

/-- Claim C6 witness: the empty list, and a single full-screen box that
contains the anchor (960, 540), both yield no target and empty stored
state. -/
theorem C6_no_target_witness :
    TargetSelector.select (960, 540) [] (0, 0) = (none, ⟨[], none⟩) ∧
    TargetSelector.select (960, 540) [⟨0, 0, 1920, 1080, 1, 0⟩] (0, 0) =
      (none, ⟨[], none⟩) :=
  C6_no_target (960, 540) (0, 0) [⟨0, 0, 1920, 1080, 1, 0⟩] (by
    intro d hd
    simp only [List.mem_singleton] at hd
    subst hd
    norm_num [point_in_box])
